import Mathlib

/-!
Verification of the asynchronous ML-analysis job pipeline
(`backend/routers/ml_analyses.py`) against its natural-language
specification.

The router logic is embedded shallowly: request handlers become pure
functions from the stored record (plus the request payload, the relevant
configuration values and the current time) to an outcome that carries both
the HTTP result and the stored record after the request.  An
`HTTPException` in the source is raised before any mutation and the
transaction is only committed on the success path, so the error
constructors carry the unchanged record.

Timestamps are modelled as natural numbers (Unix seconds); database rows
as Lean structures; raw request bodies as lists of byte values.
-/

namespace MLPipe

/-- One ML analysis record, with the columns the router reads or writes
(`status`, `error_message`, `started_at`, `completed_at`, `created_at`,
`updated_at`, `model_name`, `model_version`).  Timestamps are `Option Nat`
when the column is nullable. -/
structure Analysis where
  status : String
  error_message : Option String := none
  started_at : Option Nat := none
  completed_at : Option Nat := none
  created_at : Nat := 0
  updated_at : Nat := 0
  model_name : String := ""
  model_version : String := ""
  deriving DecidableEq

/-- Payload of `PATCH /analyses/.../status` (class `StatusUpdatePayload`). -/
structure StatusUpdatePayload where
  status : String
  error_message : Option String := none
  deriving DecidableEq

/-- Python truthiness of an `Optional[str]`: `None` and the empty string
are falsy, every other string is truthy. -/
def pyTruthy : Option String → Bool
  | none => false
  | some s => !(s == "")

/-- Python `str.lower()`, character by character.  On the ASCII status
strings this subsystem compares it maps the letters `A`-`Z` to `a`-`z` and
leaves everything else unchanged, which is exactly `Char.toLower`. -/
def pyLower (s : String) : String := String.mk (s.data.map Char.toLower)

/-- The five analysis statuses of the data model. -/
def STATUSES : List String := ["queued", "processing", "completed", "failed", "canceled"]

/-- The terminal statuses (the literal set the router tests membership in). -/
def TERMINAL_STATUSES : List String := ["completed", "failed", "canceled"]

/-- The transition table `VALID_STATUS_TRANSITIONS`, as a total function via
`dict.get(old, set())`: unknown keys map to the empty set. -/
def VALID_STATUS_TRANSITIONS (s : String) : List String :=
  if s = "queued" then ["processing", "canceled"]
  else if s = "processing" then ["completed", "failed", "canceled"]
  else []

/-- Outcome of a request handler that responds with (a view of) the stored
analysis record: `ok` is the 2xx path, `err code` an `HTTPException` with
that HTTP status code.  Both constructors carry the stored record after the
request. -/
inductive UStep where
  | ok (record : Analysis)
  | err (code : Nat) (record : Analysis)
  deriving DecidableEq

/-- The stored record after the request, in either outcome. -/
def UStep.record : UStep → Analysis
  | .ok a => a
  | .err _ a => a

/-- Handler of `PATCH /analyses/.../status` (`update_ml_analysis_status`),
after the feature-flag, existence and access checks: lowercase both
statuses, succeed without touching the row when they agree, reject with 409
when the target is not in the transition table, and otherwise set
`started_at` on first entry into `processing`, set `completed_at` on entry
into a terminal status, store the new status, store the error message when
the payload carries a truthy one, and commit (which refreshes
`updated_at`). -/
def update_ml_analysis_status (a : Analysis) (payload : StatusUpdatePayload) (now : Nat) : UStep :=
  let new_status := pyLower payload.status
  let old_status := pyLower a.status
  if old_status = new_status then
    UStep.ok a
  else if new_status ∈ VALID_STATUS_TRANSITIONS old_status then
    let a1 := if new_status = "processing" ∧ a.started_at = none then
                { a with started_at := some now } else a
    let a2 := if new_status ∈ TERMINAL_STATUSES then
                { a1 with completed_at := some now } else a1
    let a3 := { a2 with status := new_status }
    let a4 := if pyTruthy payload.error_message then
                { a3 with error_message := payload.error_message } else a3
    UStep.ok { a4 with updated_at := now }
  else
    UStep.err 409 a

lemma pyLower_self_of_mem_STATUSES {s : String} (hs : s ∈ STATUSES) : pyLower s = s := by
  simp only [STATUSES, List.mem_cons, List.not_mem_nil, or_false] at hs
  rcases hs with h | h | h | h | h <;> subst h <;> decide

lemma update_eq_conflict (a : Analysis) (payload : StatusUpdatePayload) (now : Nat)
    (hne : pyLower a.status ≠ pyLower payload.status)
    (hnot : pyLower payload.status ∉ VALID_STATUS_TRANSITIONS (pyLower a.status)) :
    update_ml_analysis_status a payload now = UStep.err 409 a := by
  unfold update_ml_analysis_status
  rw [if_neg hne, if_neg hnot]

lemma update_accepted (a : Analysis) (payload : StatusUpdatePayload) (now : Nat)
    (hne : pyLower a.status ≠ pyLower payload.status)
    (hmem : pyLower payload.status ∈ VALID_STATUS_TRANSITIONS (pyLower a.status)) :
    update_ml_analysis_status a payload now =
      UStep.ok { a with
        status := pyLower payload.status,
        started_at := if pyLower payload.status = "processing" ∧ a.started_at = none then
                        some now else a.started_at,
        completed_at := if pyLower payload.status ∈ TERMINAL_STATUSES then
                          some now else a.completed_at,
        error_message := if pyTruthy payload.error_message then
                           payload.error_message else a.error_message,
        updated_at := now } := by
  unfold update_ml_analysis_status
  rw [if_neg hne, if_pos hmem]
  by_cases h1 : pyLower payload.status = "processing" ∧ a.started_at = none <;>
    by_cases h2 : pyLower payload.status ∈ TERMINAL_STATUSES <;>
      by_cases h3 : pyTruthy payload.error_message = true <;>
        simp [h1, h2, h3, TERMINAL_STATUSES] <;> simp_all [TERMINAL_STATUSES]

/-!
HMAC-SHA256 signature verification.

The router's `_verify_pipeline_hmac` helper is embedded from the source.
The `verify_hmac_signature_flexible` function it calls is imported from
`utils.dependencies`, whose definition is not among these sources; it is
modelled from the specification (§4.3 and §6): the expected signature is
`sha256=` followed by the hex HMAC-SHA256 of `timestamp_bytes || "." ||
body_bytes` under the shared secret, the timestamp must be decimal Unix
seconds within a bounded skew window of the current time in either
direction, and the constant-time comparison is modelled as plain equality
(timing is outside a shallow embedding).  SHA-256 itself is implemented
below over byte lists, with 32-bit words as naturals reduced mod `2 ^ 32`.
-/

/-- Two to the thirty-second power, the modulus of 32-bit words. -/
def M32 : Nat := 4294967296

/-- Right rotation of a 32-bit word. -/
def rotr (n x : Nat) : Nat := ((x >>> n) ||| (x <<< (32 - n))) % M32

/-- Upper-case sigma-0 of the SHA-256 compression function. -/
def bigS0 (x : Nat) : Nat := rotr 2 x ^^^ rotr 13 x ^^^ rotr 22 x

/-- Upper-case sigma-1 of the SHA-256 compression function. -/
def bigS1 (x : Nat) : Nat := rotr 6 x ^^^ rotr 11 x ^^^ rotr 25 x

/-- Lower-case sigma-0 of the SHA-256 message schedule. -/
def smallS0 (x : Nat) : Nat := rotr 7 x ^^^ rotr 18 x ^^^ (x >>> 3)

/-- Lower-case sigma-1 of the SHA-256 message schedule. -/
def smallS1 (x : Nat) : Nat := rotr 17 x ^^^ rotr 19 x ^^^ (x >>> 10)

/-- The SHA-256 choose function, with bitwise complement as xor against the
all-ones 32-bit word. -/
def chF (x y z : Nat) : Nat := (x &&& y) ^^^ ((x ^^^ (M32 - 1)) &&& z)

/-- The SHA-256 majority function. -/
def majF (x y z : Nat) : Nat := (x &&& y) ^^^ (x &&& z) ^^^ (y &&& z)

/-- The 64 SHA-256 round constants of FIPS 180, as decimal values. -/
def K256 : List Nat :=
  [1116352408, 1899447441, 3049323471, 3921009573, 961987163,
   1508970993, 2453635748, 2870763221, 3624381080, 310598401,
   607225278, 1426881987, 1925078388, 2162078206, 2614888103,
   3248222580, 3835390401, 4022224774, 264347078, 604807628,
   770255983, 1249150122, 1555081692, 1996064986, 2554220882,
   2821834349, 2952996808, 3210313671, 3336571891, 3584528711,
   113926993, 338241895, 666307205, 773529912, 1294757372,
   1396182291, 1695183700, 1986661051, 2177026350, 2456956037,
   2730485921, 2820302411, 3259730800, 3345764771, 3516065817,
   3600352804, 4094571909, 275423344, 430227734, 506948616,
   659060556, 883997877, 958139571, 1322822218, 1537002063,
   1747873779, 1955562222, 2024104815, 2227730452, 2361852424,
   2428436474, 2756734187, 3204031479, 3329325298]

/-- The SHA-256 initial hash value of FIPS 180, as decimal values. -/
def H256 : List Nat :=
  [1779033703, 3144134277, 1013904242, 2773480762, 1359893119,
   2600822924, 528734635, 1541459225]

/-- Big-endian byte decomposition of a value into `n` bytes. -/
def bytesBE (n v : Nat) : List Nat :=
  (List.range n).map (fun i => (v >>> (8 * (n - 1 - i))) % 256)

/-- SHA-256 padding: append the `0x80` byte, zeros up to 56 mod 64, and the
bit length as an 8-byte big-endian value. -/
def shaPad (msg : List Nat) : List Nat :=
  let z := (120 - (msg.length + 1) % 64) % 64
  msg ++ [128] ++ List.replicate z 0 ++ bytesBE 8 (8 * msg.length)

/-- The sixteen 32-bit big-endian words of one 64-byte block. -/
def blockWords (block : List Nat) : List Nat :=
  (List.range 16).map (fun j => ((block.drop (4 * j)).take 4).foldl (fun acc b => acc * 256 + b) 0)

/-- Extend sixteen schedule words to the full 64-entry message schedule. -/
def extendSchedule (w16 : List Nat) : List Nat :=
  (List.range 48).foldl
    (fun w _ =>
      let t := w.length
      w ++ [(smallS1 (w.getD (t - 2) 0) + w.getD (t - 7) 0 +
             smallS0 (w.getD (t - 15) 0) + w.getD (t - 16) 0) % M32])
    w16

/-- One SHA-256 compression step over the eight working variables. -/
def shaRound (k wt : Nat) : (Nat × Nat × Nat × Nat × Nat × Nat × Nat × Nat) →
    (Nat × Nat × Nat × Nat × Nat × Nat × Nat × Nat)
  | (a, b, c, d, e, f, g, h) =>
    let t1 := (h + bigS1 e + chF e f g + k + wt) % M32
    let t2 := (bigS0 a + majF a b c) % M32
    ((t1 + t2) % M32, a, b, c, (d + t1) % M32, e, f, g)

/-- Compress one 64-byte block into the running hash state. -/
def compressBlock (H : List Nat) (block : List Nat) : List Nat :=
  let w := extendSchedule (blockWords block)
  let st0 := (H.getD 0 0, H.getD 1 0, H.getD 2 0, H.getD 3 0,
              H.getD 4 0, H.getD 5 0, H.getD 6 0, H.getD 7 0)
  let stf := (List.range 64).foldl (fun st t => shaRound (K256.getD t 0) (w.getD t 0) st) st0
  match stf with
  | (a, b, c, d, e, f, g, h) =>
    [(H.getD 0 0 + a) % M32, (H.getD 1 0 + b) % M32, (H.getD 2 0 + c) % M32,
     (H.getD 3 0 + d) % M32, (H.getD 4 0 + e) % M32, (H.getD 5 0 + f) % M32,
     (H.getD 6 0 + g) % M32, (H.getD 7 0 + h) % M32]

/-- SHA-256 of a byte list, as a 32-byte digest. -/
def sha256 (msg : List Nat) : List Nat :=
  let padded := shaPad msg
  let blocks := (List.range (padded.length / 64)).map (fun i => (padded.drop (64 * i)).take 64)
  ((blocks.foldl compressBlock H256).map (bytesBE 4)).flatten

/-- HMAC-SHA256 over byte lists, with the standard 64-byte block size and
the `0x36`/`0x5c` inner and outer pads. -/
def hmacSha256 (key msg : List Nat) : List Nat :=
  let k1 := if key.length > 64 then sha256 key else key
  let k2 := k1 ++ List.replicate (64 - k1.length) 0
  sha256 ((k2.map (fun b => b ^^^ 92)) ++ sha256 ((k2.map (fun b => b ^^^ 54)) ++ msg))

/-- One lowercase hexadecimal digit. -/
def hexDigit (n : Nat) : Char := if n < 10 then Char.ofNat (48 + n) else Char.ofNat (87 + n)

/-- Lowercase hexadecimal rendering of a byte list. -/
def bytesToHex (bs : List Nat) : String :=
  String.mk ((bs.map (fun b => [hexDigit (b / 16), hexDigit (b % 16)])).flatten)

/-- Byte encoding of a string, character by character.  This coincides with
the UTF-8 encoding used by the source on the ASCII secrets and decimal
timestamps of the protocol. -/
def strBytes (s : String) : List Nat := s.data.map Char.toNat

/-- Modelled from the spec: the wire signature expected for a given secret,
timestamp string and raw body — `sha256=` followed by the lowercase hex
HMAC-SHA256 of `timestamp_bytes || "." || body_bytes` under the secret
(§4.3 step 2, §6).  Byte 46 is the `.` separator. -/
def expected_signature (secret ts : String) (body : List Nat) : String :=
  "sha256=" ++ bytesToHex (hmacSha256 (strBytes secret) (strBytes ts ++ [46] ++ body))

/-- Parse a non-empty all-digit decimal string, as Python `int` does on
the timestamp header (`X-ML-Timestamp` is decimal Unix seconds per §6);
anything else is unparsable. -/
def parse_ts (s : String) : Option Nat :=
  if s.data ≠ [] ∧ s.data.all (fun c => decide (48 ≤ c.toNat) && decide (c.toNat ≤ 57)) then
    some (s.data.foldl (fun n c => n * 10 + (c.toNat - 48)) 0)
  else none

/-- Modelled from the spec: `verify_hmac_signature_flexible` from
`utils.dependencies`, whose source is not included here.  Per §4.3 it
rejects a missing or unparsable timestamp, rejects a timestamp outside the
configured skew window of the current time (bounded in both directions),
and otherwise compares the provided signature against the expected one;
the constant-time comparison is modelled as equality. -/
def verify_hmac_signature_flexible (secret : String) (body : List Nat) (ts sig : String)
    (window now : Nat) : Bool :=
  match parse_ts ts with
  | none => false
  | some t => if Nat.dist now t > window then false else sig == expected_signature secret ts body

/-- The router's `_verify_pipeline_hmac` helper: skip verification entirely
when enforcement is disabled, fail with 500 when no secret is configured,
read the two headers with defaults `""` and `"0"`, and fail with 401 when
the flexible verification rejects.  Returns `none` when the request passes
and `some code` for the `HTTPException` it raises. -/
def _verify_pipeline_hmac (requireHmac : Bool) (secret : String)
    (sigHeader tsHeader : Option String) (body : List Nat) (window now : Nat) : Option Nat :=
  if !requireHmac then none
  else if secret = "" then some 500
  else
    let sig := sigHeader.getD ""
    let ts := tsHeader.getD "0"
    if verify_hmac_signature_flexible secret body ts sig window now then none else some 401

/-- Payload of `POST /analyses/.../finalize` (class `FinalizeRequest`). -/
structure FinalizeRequest where
  status : Option String := none
  error_message : Option String := none
  deriving DecidableEq

/-- Handler of `POST /analyses/.../finalize` (`finalize_analysis`), after
the existence and access checks: feature flag, HMAC verification on the raw
body, then — when the request carries a truthy status — either the fast
path from a literally `queued` record to a lowercased `completed` or
`failed` (synthesizing `started_at` when unset and setting `completed_at`),
or delegation to the ordinary status-update handler; a request without a
status returns the current record unchanged. -/
def finalize_analysis (enabled requireHmac : Bool) (secret : String)
    (sigHeader tsHeader : Option String) (body : List Nat) (window now : Nat)
    (a : Analysis) (req : FinalizeRequest) : UStep :=
  if !enabled then UStep.err 404 a
  else
    match _verify_pipeline_hmac requireHmac secret sigHeader tsHeader body window now with
    | some code => UStep.err code a
    | none =>
      if pyTruthy req.status then
        let s := req.status.getD ""
        let normalized_new := pyLower s
        if a.status = "queued" ∧ normalized_new ∈ ["completed", "failed"] then
          let a1 := if a.started_at = none then { a with started_at := some now } else a
          let a2 := { a1 with completed_at := some now, status := normalized_new }
          let a3 := if pyTruthy req.error_message then
                      { a2 with error_message := req.error_message } else a2
          UStep.ok { a3 with updated_at := now }
        else
          update_ml_analysis_status a { status := s, error_message := req.error_message } now
      else
        UStep.ok a

@[simp] lemma UStep.record_ok (a : Analysis) : (UStep.ok a).record = a := rfl

@[simp] lemma UStep.record_err (c : Nat) (a : Analysis) : (UStep.err c a).record = a := rfl

lemma finalize_fast_eq (requireHmac : Bool) (secret : String)
    (sigHeader tsHeader : Option String) (body : List Nat) (window now : Nat)
    (a : Analysis) (req : FinalizeRequest)
    (hver : _verify_pipeline_hmac requireHmac secret sigHeader tsHeader body window now = none)
    (htr : pyTruthy req.status = true)
    (hfast : a.status = "queued" ∧ pyLower (req.status.getD "") ∈ ["completed", "failed"]) :
    finalize_analysis true requireHmac secret sigHeader tsHeader body window now a req =
      UStep.ok { a with
        status := pyLower (req.status.getD ""),
        started_at := if a.started_at = none then some now else a.started_at,
        completed_at := some now,
        error_message := if pyTruthy req.error_message then req.error_message
                         else a.error_message,
        updated_at := now } := by
  unfold finalize_analysis
  simp only [Bool.not_true, if_false]
  rw [hver]
  dsimp only
  rw [if_pos htr, if_pos hfast]
  by_cases hA : a.started_at = none <;>
    by_cases hE : pyTruthy req.error_message = true <;>
      simp [hA, hE]

lemma finalize_no_status (requireHmac : Bool) (secret : String)
    (sigHeader tsHeader : Option String) (body : List Nat) (window now : Nat)
    (a : Analysis) (req : FinalizeRequest)
    (hver : _verify_pipeline_hmac requireHmac secret sigHeader tsHeader body window now = none)
    (htr : pyTruthy req.status = false) :
    finalize_analysis true requireHmac secret sigHeader tsHeader body window now a req =
      UStep.ok a := by
  unfold finalize_analysis
  simp only [Bool.not_true, if_false]
  rw [hver]
  dsimp only
  have hcond : ¬(pyTruthy req.status = true) := by simp [htr]
  rw [if_neg hcond]
  simp

lemma expected_signature_ne_empty (secret ts : String) (body : List Nat) :
    expected_signature secret ts body ≠ "" := by
  intro h
  have hlen := congrArg String.length h
  rw [expected_signature, String.length_append] at hlen
  simp at hlen
  exact absurd hlen.1 (by decide)

/-- C3: with signature enforcement enabled, a pipeline-write request passes
the HMAC gate exactly when its signature header equals `sha256=` plus the
hex HMAC-SHA256 of timestamp, `.` separator and raw body under the shared
secret, and its timestamp is within the skew window of the current time; a
stale timestamp gives 401 even with a correct signature, a mismatched
signature gives 401, a missing signature header (defaulted to the empty
string, which never equals the expected signature) gives 401, and a missing
server-side secret gives 500. -/
theorem C3_signature_gate (secret sig ts : String) (body : List Nat) (window now : Nat) :
    (_verify_pipeline_hmac true secret (some sig) (some ts) body window now =
      (if secret = "" then some 500
       else match parse_ts ts with
         | none => some 401
         | some t =>
           if Nat.dist now t ≤ window ∧ sig = expected_signature secret ts body then none
           else some 401)) ∧
    (_verify_pipeline_hmac true secret none (some ts) body window now =
      _verify_pipeline_hmac true secret (some "") (some ts) body window now) ∧
    expected_signature secret ts body ≠ "" := by
  refine ⟨?_, rfl, expected_signature_ne_empty secret ts body⟩
  unfold _verify_pipeline_hmac verify_hmac_signature_flexible
  by_cases hs : secret = ""
  · simp [hs]
  · simp only [hs, if_false, Bool.not_true, Option.getD_some, if_neg hs]
    cases hts : parse_ts ts with
    | none => simp
    | some t =>
      by_cases hd : Nat.dist now t > window
      · have hnle : ¬(Nat.dist now t ≤ window) := by omega
        simp [hd, hnle]
      · have hle : Nat.dist now t ≤ window := by omega
        by_cases hsig : sig = expected_signature secret ts body <;>
          simp [hd, hle, hsig]

/-!
Analysis creation (`create_ml_analysis`) with its quota and allow-list
checks, and bulk annotation upload (`bulk_upload_annotations`).  The
`AnalysisStore` CRUD primitives the router calls (`utils.crud`) are not
among these sources; they are modelled from the spec (§2, §6, §7) as list
operations on the per-image collection of analyses and the per-analysis
collection of annotation rows: paginated listing, appending creation, and
an atomic bulk insert.
-/

/-- Payload of `POST /images/.../analyses` (schema `MLAnalysisCreate`),
with the fields the router reads. -/
structure MLAnalysisCreate where
  image_id : Nat
  model_name : String
  model_version : String := ""
  deriving DecidableEq

/-- Modelled from the spec: `crud.list_ml_analyses_for_image`, paginated
listing of the stored analyses of one image (`AnalysisStore` CRUD
primitive, §4.4). -/
def list_ml_analyses_for_image (store : List Analysis) (skip limit : Nat) : List Analysis :=
  (store.drop skip).take limit

/-- The configuration values the creation endpoint reads, named as in the
settings object. -/
structure CreateSettings where
  ML_ANALYSIS_ENABLED : Bool := true
  ML_MAX_ANALYSES_PER_IMAGE : Nat
  ML_ALLOWED_MODELS : String
  ML_DEFAULT_STATUS : String := "queued"
  deriving DecidableEq

/-- Split a character list at every comma, as Python `str.split(',')` does
(consecutive commas yield empty pieces; the empty string yields one empty
piece). -/
def splitCommaAux : List Char → List Char → List (List Char)
  | [], acc => [acc.reverse]
  | c :: rest, acc =>
    if c = ',' then acc.reverse :: splitCommaAux rest []
    else splitCommaAux rest (c :: acc)

/-- ASCII whitespace, as stripped by Python `str.strip()` on the
configuration values in play. -/
def isSpaceChar (c : Char) : Bool :=
  c = ' ' ∨ c = '\t' ∨ c = '\n' ∨ c = '\r'

/-- Strip leading and trailing whitespace from a character list. -/
def stripChars (cs : List Char) : List Char :=
  ((cs.dropWhile isSpaceChar).reverse.dropWhile isSpaceChar).reverse

/-- The parsed model allow-list: split the comma-separated configuration
string, strip each entry, and keep the truthy (non-empty) ones — the
comprehension `[m.strip() for m in settings.ML_ALLOWED_MODELS.split(',')
if m.strip()]`. -/
def allowed_models (cfg : String) : List String :=
  ((splitCommaAux cfg.data []).map (fun cs => String.mk (stripChars cs))).filter
    (fun m => !(m == ""))

/-- Outcome of the creation endpoint: the created record and the stored
collection after the request on success, or an `HTTPException` code with
the unchanged collection. -/
inductive CreateResult where
  | ok (record : Analysis) (store : List Analysis)
  | err (code : Nat) (store : List Analysis)
  deriving DecidableEq

/-- The stored collection after a creation request, in either outcome. -/
def CreateResult.store : CreateResult → List Analysis
  | .ok _ st => st
  | .err _ st => st

/-- Whether a creation request succeeded. -/
def CreateResult.isOk : CreateResult → Bool
  | .ok _ _ => true
  | .err _ _ => false

/-- Handler of `POST /images/.../analyses` (`create_ml_analysis`), after
the access check: feature flag (404), path/body image-id mismatch (400),
the per-image limit — reading up to `ML_MAX_ANALYSES_PER_IMAGE + 1`
existing analyses and rejecting when their number reaches the maximum —
then the model allow-list, and finally the insert with the configured
default status. -/
def create_ml_analysis (s : CreateSettings) (image_id : Nat) (analysis_in : MLAnalysisCreate)
    (store : List Analysis) (now : Nat) : CreateResult :=
  if !s.ML_ANALYSIS_ENABLED then CreateResult.err 404 store
  else if image_id ≠ analysis_in.image_id then CreateResult.err 400 store
  else
    if (list_ml_analyses_for_image store 0 (s.ML_MAX_ANALYSES_PER_IMAGE + 1)).length ≥
        s.ML_MAX_ANALYSES_PER_IMAGE then CreateResult.err 400 store
    else if analysis_in.model_name ∉ allowed_models s.ML_ALLOWED_MODELS then
      CreateResult.err 400 store
    else
      let rcd : Analysis := { status := s.ML_DEFAULT_STATUS,
                              model_name := analysis_in.model_name,
                              model_version := analysis_in.model_version,
                              created_at := now, updated_at := now }
      CreateResult.ok rcd (store ++ [rcd])

/-- The stored collection after `k` successive creation attempts with the
same payload, starting from an image with no analyses. -/
def createRepeat (s : CreateSettings) (image_id : Nat) (analysis_in : MLAnalysisCreate)
    (now : Nat) : Nat → List Analysis
  | 0 => []
  | k + 1 =>
    (create_ml_analysis s image_id analysis_in
      (createRepeat s image_id analysis_in now k) now).store

lemma create_quota_err (s : CreateSettings) (image_id : Nat) (analysis_in : MLAnalysisCreate)
    (store : List Analysis) (now : Nat)
    (hen : s.ML_ANALYSIS_ENABLED = true) (hid : image_id = analysis_in.image_id)
    (hq : store.length ≥ s.ML_MAX_ANALYSES_PER_IMAGE) :
    create_ml_analysis s image_id analysis_in store now = CreateResult.err 400 store := by
  unfold create_ml_analysis
  rw [hen]
  have hc1 : ¬(image_id ≠ analysis_in.image_id) := by simp [hid]
  have hc2 : (list_ml_analyses_for_image store 0 (s.ML_MAX_ANALYSES_PER_IMAGE + 1)).length ≥
      s.ML_MAX_ANALYSES_PER_IMAGE := by
    unfold list_ml_analyses_for_image
    simp only [List.drop_zero, List.length_take]
    omega
  simp only [Bool.not_true, Bool.false_eq_true, if_false]
  rw [if_neg hc1, if_pos hc2]

lemma create_model_err (s : CreateSettings) (image_id : Nat) (analysis_in : MLAnalysisCreate)
    (store : List Analysis) (now : Nat)
    (hen : s.ML_ANALYSIS_ENABLED = true) (hid : image_id = analysis_in.image_id)
    (hq : store.length < s.ML_MAX_ANALYSES_PER_IMAGE)
    (hm : analysis_in.model_name ∉ allowed_models s.ML_ALLOWED_MODELS) :
    create_ml_analysis s image_id analysis_in store now = CreateResult.err 400 store := by
  unfold create_ml_analysis
  rw [hen]
  have hc1 : ¬(image_id ≠ analysis_in.image_id) := by simp [hid]
  have hc2 : ¬((list_ml_analyses_for_image store 0 (s.ML_MAX_ANALYSES_PER_IMAGE + 1)).length ≥
      s.ML_MAX_ANALYSES_PER_IMAGE) := by
    unfold list_ml_analyses_for_image
    simp only [List.drop_zero, List.length_take]
    omega
  simp only [Bool.not_true, Bool.false_eq_true, if_false]
  rw [if_neg hc1, if_neg hc2, if_pos hm]

lemma create_ok (s : CreateSettings) (image_id : Nat) (analysis_in : MLAnalysisCreate)
    (store : List Analysis) (now : Nat)
    (hen : s.ML_ANALYSIS_ENABLED = true) (hid : image_id = analysis_in.image_id)
    (hq : store.length < s.ML_MAX_ANALYSES_PER_IMAGE)
    (hm : analysis_in.model_name ∈ allowed_models s.ML_ALLOWED_MODELS) :
    create_ml_analysis s image_id analysis_in store now =
      CreateResult.ok
        { status := s.ML_DEFAULT_STATUS, model_name := analysis_in.model_name,
          model_version := analysis_in.model_version, created_at := now, updated_at := now }
        (store ++
          [{ status := s.ML_DEFAULT_STATUS, model_name := analysis_in.model_name,
             model_version := analysis_in.model_version, created_at := now,
             updated_at := now }]) := by
  unfold create_ml_analysis
  rw [hen]
  have hc1 : ¬(image_id ≠ analysis_in.image_id) := by simp [hid]
  have hc2 : ¬((list_ml_analyses_for_image store 0 (s.ML_MAX_ANALYSES_PER_IMAGE + 1)).length ≥
      s.ML_MAX_ANALYSES_PER_IMAGE) := by
    unfold list_ml_analyses_for_image
    simp only [List.drop_zero, List.length_take]
    omega
  have hc3 : ¬(analysis_in.model_name ∉ allowed_models s.ML_ALLOWED_MODELS) :=
    not_not_intro hm
  simp only [Bool.not_true, Bool.false_eq_true, if_false]
  rw [if_neg hc1, if_neg hc2, if_neg hc3]

lemma createRepeat_length (s : CreateSettings) (image_id : Nat) (analysis_in : MLAnalysisCreate)
    (now : Nat)
    (hen : s.ML_ANALYSIS_ENABLED = true) (hid : image_id = analysis_in.image_id)
    (hm : analysis_in.model_name ∈ allowed_models s.ML_ALLOWED_MODELS) :
    ∀ k, (createRepeat s image_id analysis_in now k).length =
      min k s.ML_MAX_ANALYSES_PER_IMAGE := by
  intro k
  induction k with
  | zero => simp [createRepeat]
  | succ k ih =>
    unfold createRepeat
    by_cases hk : (createRepeat s image_id analysis_in now k).length <
        s.ML_MAX_ANALYSES_PER_IMAGE
    · rw [create_ok s image_id analysis_in _ now hen hid hk hm]
      simp only [CreateResult.store, List.length_append, List.length_cons, List.length_nil]
      omega
    · rw [create_quota_err s image_id analysis_in _ now hen hid (by omega)]
      simp only [CreateResult.store]
      omega

/-- C5: with the feature enabled and matching image ids, a creation request
with a model outside the allow-list, or against an image whose analysis
count is not strictly below the configured maximum, fails with 400 and
leaves the stored collection unchanged; one with an allow-listed model and
a below-maximum count appends exactly one queued-by-default record; and
starting from an image with no analyses, every one of the first
`ML_MAX_ANALYSES_PER_IMAGE` creation attempts succeeds while the next
attempt fails with the limit error for any allow-listed model. -/
theorem C5_create_quota_allowlist (s : CreateSettings) (image_id : Nat)
    (ain : MLAnalysisCreate) (store : List Analysis) (now : Nat)
    (hen : s.ML_ANALYSIS_ENABLED = true) (hid : image_id = ain.image_id) :
    ((ain.model_name ∉ allowed_models s.ML_ALLOWED_MODELS ∨
        store.length ≥ s.ML_MAX_ANALYSES_PER_IMAGE) →
      create_ml_analysis s image_id ain store now = CreateResult.err 400 store) ∧
    (ain.model_name ∈ allowed_models s.ML_ALLOWED_MODELS →
      store.length < s.ML_MAX_ANALYSES_PER_IMAGE →
      create_ml_analysis s image_id ain store now =
        CreateResult.ok
          { status := s.ML_DEFAULT_STATUS, model_name := ain.model_name,
            model_version := ain.model_version, created_at := now, updated_at := now }
          (store ++
            [{ status := s.ML_DEFAULT_STATUS, model_name := ain.model_name,
               model_version := ain.model_version, created_at := now,
               updated_at := now }])) ∧
    (ain.model_name ∈ allowed_models s.ML_ALLOWED_MODELS →
      (∀ k, k < s.ML_MAX_ANALYSES_PER_IMAGE →
        (create_ml_analysis s image_id ain
          (createRepeat s image_id ain now k) now).isOk = true) ∧
      (∀ m', m' ∈ allowed_models s.ML_ALLOWED_MODELS →
        create_ml_analysis s image_id
          { image_id := ain.image_id, model_name := m', model_version := ain.model_version }
          (createRepeat s image_id ain now s.ML_MAX_ANALYSES_PER_IMAGE) now =
        CreateResult.err 400
          (createRepeat s image_id ain now s.ML_MAX_ANALYSES_PER_IMAGE))) := by
  refine ⟨?_, ?_, ?_⟩
  · intro h
    by_cases hq : store.length ≥ s.ML_MAX_ANALYSES_PER_IMAGE
    · exact create_quota_err s image_id ain store now hen hid hq
    · rcases h with hm | hm
      · exact create_model_err s image_id ain store now hen hid (by omega) hm
      · omega
  · intro hm hq
    exact create_ok s image_id ain store now hen hid hq hm
  · intro hm
    constructor
    · intro k hk
      have hlen : (createRepeat s image_id ain now k).length <
          s.ML_MAX_ANALYSES_PER_IMAGE := by
        rw [createRepeat_length s image_id ain now hen hid hm k]
        omega
      rw [create_ok s image_id ain _ now hen hid hlen hm]
      rfl
    · intro m' hm'
      have hlen : (createRepeat s image_id ain now s.ML_MAX_ANALYSES_PER_IMAGE).length ≥
          s.ML_MAX_ANALYSES_PER_IMAGE := by
        rw [createRepeat_length s image_id ain now hen hid hm]
        omega
      exact create_quota_err s image_id _ _ now hen hid hlen

/-- Witness for C5 at concrete inputs: allow-list parsed from
`resnet50_classifier, yolo`, maximum two analyses per image — a
disallowed model is rejected, an allowed one is stored, the first two
repeat creations succeed and the third is rejected. -/
theorem C5_create_quota_allowlist_witness :
    (create_ml_analysis
        { ML_MAX_ANALYSES_PER_IMAGE := 2, ML_ALLOWED_MODELS := "resnet50_classifier, yolo" }
        1 { image_id := 1, model_name := "vgg" } [] 9 =
      CreateResult.err 400 []) ∧
    (create_ml_analysis
        { ML_MAX_ANALYSES_PER_IMAGE := 2, ML_ALLOWED_MODELS := "resnet50_classifier, yolo" }
        1 { image_id := 1, model_name := "resnet50_classifier" } [] 9 =
      CreateResult.ok
        { status := "queued", model_name := "resnet50_classifier", model_version := "",
          created_at := 9, updated_at := 9 }
        [{ status := "queued", model_name := "resnet50_classifier", model_version := "",
           created_at := 9, updated_at := 9 }]) ∧
    (∀ k, k < 2 →
      (create_ml_analysis
        { ML_MAX_ANALYSES_PER_IMAGE := 2, ML_ALLOWED_MODELS := "resnet50_classifier, yolo" }
        1 { image_id := 1, model_name := "resnet50_classifier" }
        (createRepeat
          { ML_MAX_ANALYSES_PER_IMAGE := 2, ML_ALLOWED_MODELS := "resnet50_classifier, yolo" }
          1 { image_id := 1, model_name := "resnet50_classifier" } 9 k) 9).isOk = true) ∧
    (create_ml_analysis
        { ML_MAX_ANALYSES_PER_IMAGE := 2, ML_ALLOWED_MODELS := "resnet50_classifier, yolo" }
        1 { image_id := 1, model_name := "yolo", model_version := "" }
        (createRepeat
          { ML_MAX_ANALYSES_PER_IMAGE := 2, ML_ALLOWED_MODELS := "resnet50_classifier, yolo" }
          1 { image_id := 1, model_name := "resnet50_classifier" } 9 2) 9 =
      CreateResult.err 400
        (createRepeat
          { ML_MAX_ANALYSES_PER_IMAGE := 2, ML_ALLOWED_MODELS := "resnet50_classifier, yolo" }
          1 { image_id := 1, model_name := "resnet50_classifier" } 9 2)) :=
  ⟨(C5_create_quota_allowlist
      { ML_MAX_ANALYSES_PER_IMAGE := 2, ML_ALLOWED_MODELS := "resnet50_classifier, yolo" }
      1 { image_id := 1, model_name := "vgg" } [] 9 (by decide) (by decide)).1 (by decide),
   (C5_create_quota_allowlist
      { ML_MAX_ANALYSES_PER_IMAGE := 2, ML_ALLOWED_MODELS := "resnet50_classifier, yolo" }
      1 { image_id := 1, model_name := "resnet50_classifier" } [] 9 (by decide)
      (by decide)).2.1 (by decide) (by decide),
   ((C5_create_quota_allowlist
      { ML_MAX_ANALYSES_PER_IMAGE := 2, ML_ALLOWED_MODELS := "resnet50_classifier, yolo" }
      1 { image_id := 1, model_name := "resnet50_classifier" } [] 9 (by decide)
      (by decide)).2.2 (by decide)).1,
   ((C5_create_quota_allowlist
      { ML_MAX_ANALYSES_PER_IMAGE := 2, ML_ALLOWED_MODELS := "resnet50_classifier, yolo" }
      1 { image_id := 1, model_name := "resnet50_classifier" } [] 9 (by decide)
      (by decide)).2.2 (by decide)).2 "yolo" (by decide)⟩

/-- Payload item of the bulk upload (schema `MLAnnotationCreate`), with
the fields the store persists; `data` is the opaque structured payload,
kept as a string. -/
structure MLAnnotationCreate where
  annotation_type : String
  class_name : Option String := none
  data : String := ""
  storage_path : Option String := none
  ordering : Nat := 0
  deriving DecidableEq

/-- One stored annotation row of an analysis. -/
structure MLAnnotationRow where
  id : Nat
  analysis_id : Nat
  annotation_type : String
  class_name : Option String := none
  data : String := ""
  storage_path : Option String := none
  ordering : Nat := 0
  created_at : Nat := 0
  deriving DecidableEq

/-- Payload of `POST /analyses/.../annotations:bulk` (class
`BulkAnnotationsPayload`); `mode` defaults to `append` and is reserved. -/
structure BulkAnnotationsPayload where
  annotations : List MLAnnotationCreate
  mode : String := "append"
  deriving DecidableEq

/-- Modelled from the spec: `crud.bulk_insert_ml_annotations`, the atomic
bulk insert (§4.4, §7: the whole batch commits or nothing does) — appends
one row per payload item to the analysis's stored annotations and returns
the inserted count. -/
def bulk_insert_ml_annotations (store : List MLAnnotationRow) (analysis_id : Nat)
    (items : List MLAnnotationCreate) (now : Nat) : Nat × List MLAnnotationRow :=
  (items.length,
   store ++ items.enum.map (fun p =>
     { id := store.length + p.1, analysis_id := analysis_id,
       annotation_type := p.2.annotation_type, class_name := p.2.class_name,
       data := p.2.data, storage_path := p.2.storage_path,
       ordering := p.2.ordering, created_at := now }))

/-- Modelled from the spec: `crud.list_ml_annotations`, paginated listing
of the stored annotation rows of one analysis; the bulk endpoint calls it
with default arguments, modelled as `none` for no page limit (every row is
returned). -/
def list_ml_annotations (store : List MLAnnotationRow) (skip : Nat) (limit : Option Nat) :
    List MLAnnotationRow :=
  match limit with
  | none => store.drop skip
  | some l => (store.drop skip).take l

/-- Outcome of the bulk upload: the listed rows and the response `total`
together with the stored collection after the request on success, or an
`HTTPException` code with the unchanged collection. -/
inductive BulkResult where
  | ok (items : List MLAnnotationRow) (total : Nat) (store : List MLAnnotationRow)
  | err (code : Nat) (store : List MLAnnotationRow)
  deriving DecidableEq

/-- Handler of `POST /analyses/.../annotations:bulk`
(`bulk_upload_annotations`), after the existence and access checks:
feature flag, the batch-size cap against `ML_MAX_BULK_ANNOTATIONS` (which
fires before the HMAC check), HMAC verification on the raw body, the
atomic insert, and a relisting of every row of the analysis whose length
is the response `total`. -/
def bulk_upload_annotations (enabled : Bool) (maxBulk : Nat) (requireHmac : Bool)
    (secret : String) (sigHeader tsHeader : Option String) (body : List Nat)
    (window now : Nat) (analysis_id : Nat) (payload : BulkAnnotationsPayload)
    (store : List MLAnnotationRow) : BulkResult :=
  if !enabled then BulkResult.err 404 store
  else if payload.annotations.length > maxBulk then BulkResult.err 400 store
  else
    match _verify_pipeline_hmac requireHmac secret sigHeader tsHeader body window now with
    | some code => BulkResult.err code store
    | none =>
      let ins := bulk_insert_ml_annotations store analysis_id payload.annotations now
      let anns := list_ml_annotations ins.2 0 none
      BulkResult.ok anns anns.length ins.2

lemma bulk_upload_ok (maxBulk : Nat) (requireHmac : Bool) (secret : String)
    (sigHeader tsHeader : Option String) (body : List Nat) (window now : Nat)
    (analysis_id : Nat) (payload : BulkAnnotationsPayload) (store : List MLAnnotationRow)
    (hver : _verify_pipeline_hmac requireHmac secret sigHeader tsHeader body window now = none)
    (hle : payload.annotations.length ≤ maxBulk) :
    bulk_upload_annotations true maxBulk requireHmac secret sigHeader tsHeader body
        window now analysis_id payload store =
      BulkResult.ok
        ((bulk_insert_ml_annotations store analysis_id payload.annotations now).2)
        ((bulk_insert_ml_annotations store analysis_id payload.annotations now).2.length)
        ((bulk_insert_ml_annotations store analysis_id payload.annotations now).2) := by
  unfold bulk_upload_annotations
  have hc1 : ¬(payload.annotations.length > maxBulk) := by omega
  simp only [Bool.not_true, Bool.false_eq_true, if_false]
  rw [if_neg hc1, hver]
  dsimp only
  rw [list_ml_annotations]
  rw [List.drop_zero]

lemma bulk_insert_snd_length (store : List MLAnnotationRow) (analysis_id : Nat)
    (items : List MLAnnotationCreate) (now : Nat) :
    (bulk_insert_ml_annotations store analysis_id items now).2.length =
      store.length + items.length := by
  unfold bulk_insert_ml_annotations
  simp [List.length_append, List.length_map, List.enum_length]

/-- C6: against an analysis with no prior annotations and with the HMAC
gate passing, a batch of at most `ML_MAX_BULK_ANNOTATIONS` annotations is
accepted, persists exactly the batch, and a subsequent list-annotations
call with any page limit of at least the batch size returns exactly that
many rows; a larger batch is rejected with 400 and nothing is persisted. -/
theorem C6_bulk_cap_atomicity (maxBulk : Nat) (requireHmac : Bool) (secret : String)
    (sigHeader tsHeader : Option String) (body : List Nat) (window now : Nat)
    (analysis_id : Nat) (payload : BulkAnnotationsPayload)
    (hver : _verify_pipeline_hmac requireHmac secret sigHeader tsHeader body window now = none) :
    (payload.annotations.length ≤ maxBulk →
      ∃ st, bulk_upload_annotations true maxBulk requireHmac secret sigHeader tsHeader body
          window now analysis_id payload [] = BulkResult.ok st st.length st ∧
        st.length = payload.annotations.length ∧
        ∀ L, payload.annotations.length ≤ L →
          (list_ml_annotations st 0 (some L)).length = payload.annotations.length) ∧
    (payload.annotations.length > maxBulk →
      bulk_upload_annotations true maxBulk requireHmac secret sigHeader tsHeader body
        window now analysis_id payload [] = BulkResult.err 400 []) := by
  constructor
  · intro hle
    refine ⟨_, bulk_upload_ok maxBulk requireHmac secret sigHeader tsHeader body window now
      analysis_id payload [] hver hle, ?_, ?_⟩
    · rw [bulk_insert_snd_length]
      simp
    · intro L hL
      rw [list_ml_annotations]
      simp only [List.drop_zero, List.length_take]
      rw [bulk_insert_snd_length]
      simp only [List.length_nil, Nat.zero_add]
      omega
  · intro hgt
    unfold bulk_upload_annotations
    simp only [Bool.not_true, Bool.false_eq_true, if_false]
    rw [if_pos hgt]

/-- Witness for C6 at concrete inputs (enforcement off so the gate
passes): a two-item batch against a three-item cap is accepted and listed
back in full, while a four-item batch is rejected leaving the store
empty. -/
theorem C6_bulk_cap_atomicity_witness :
    (∃ st, bulk_upload_annotations true 3 false "" none none [] 300 7 42
        { annotations := [{ annotation_type := "classification" },
                          { annotation_type := "bbox" }] } [] =
        BulkResult.ok st st.length st ∧
      st.length = 2 ∧
      ∀ L, 2 ≤ L → (list_ml_annotations st 0 (some L)).length = 2) ∧
    (bulk_upload_annotations true 3 false "" none none [] 300 7 42
        { annotations := [{ annotation_type := "a" }, { annotation_type := "b" },
                          { annotation_type := "c" }, { annotation_type := "d" }] } [] =
      BulkResult.err 400 []) :=
  ⟨(C6_bulk_cap_atomicity 3 false "" none none [] 300 7 42
      { annotations := [{ annotation_type := "classification" },
                        { annotation_type := "bbox" }] } (by decide)).1 (by decide),
   (C6_bulk_cap_atomicity 3 false "" none none [] 300 7 42
      { annotations := [{ annotation_type := "a" }, { annotation_type := "b" },
                        { annotation_type := "c" }, { annotation_type := "d" }] }
      (by decide)).2 (by decide)⟩

/-- C10: a successful bulk upload of `N` annotations against an analysis
already holding `M` annotations responds with every annotation of the
analysis — the prior rows as a prefix followed by the new ones — and its
`total` field equals `M + N`, not the submitted batch size `N`. -/
theorem C10_bulk_total_counts_all (maxBulk : Nat) (requireHmac : Bool) (secret : String)
    (sigHeader tsHeader : Option String) (body : List Nat) (window now : Nat)
    (analysis_id : Nat) (payload : BulkAnnotationsPayload) (store : List MLAnnotationRow)
    (hver : _verify_pipeline_hmac requireHmac secret sigHeader tsHeader body window now = none)
    (hle : payload.annotations.length ≤ maxBulk) :
    ∃ st, bulk_upload_annotations true maxBulk requireHmac secret sigHeader tsHeader body
        window now analysis_id payload store =
      BulkResult.ok st (store.length + payload.annotations.length) st ∧
      st.length = store.length + payload.annotations.length ∧
      st.take store.length = store := by
  have hb := bulk_upload_ok maxBulk requireHmac secret sigHeader tsHeader body window now
    analysis_id payload store hver hle
  have hlen := bulk_insert_snd_length store analysis_id payload.annotations now
  refine ⟨_, ?_, hlen, ?_⟩
  · rw [hb, hlen]
  · unfold bulk_insert_ml_annotations
    exact List.take_left store _

/-- Witness for C10 at concrete inputs: one new annotation against an
analysis already holding two rows yields a response of all three rows with
`total = 3`. -/
theorem C10_bulk_total_counts_all_witness :
    ∃ st, bulk_upload_annotations true 3 false "" none none [] 300 7 42
        { annotations := [{ annotation_type := "classification" }] }
        [{ id := 0, analysis_id := 42, annotation_type := "old1" },
         { id := 1, analysis_id := 42, annotation_type := "old2" }] =
      BulkResult.ok st (2 + 1) st ∧
      st.length = 2 + 1 ∧
      st.take 2 =
        [{ id := 0, analysis_id := 42, annotation_type := "old1" },
         { id := 1, analysis_id := 42, annotation_type := "old2" }] :=
  C10_bulk_total_counts_all 3 false "" none none [] 300 7 42
    { annotations := [{ annotation_type := "classification" }] }
    [{ id := 0, analysis_id := 42, annotation_type := "old1" },
     { id := 1, analysis_id := 42, annotation_type := "old2" }]
    (by decide) (by decide)

/-- C1: for every analysis whose stored status is `from` and every requested
status `to` with `to ≠ from` and `to` not in the transition table, the
status-update operation returns a 409 conflict and the stored analysis
record, including its status, is unchanged. -/
theorem C1_illegal_transition_conflict (a : Analysis) (payload : StatusUpdatePayload) (now : Nat)
    (hfrom : a.status ∈ STATUSES) (hto : payload.status ∈ STATUSES)
    (hne : payload.status ≠ a.status)
    (hnot : payload.status ∉ VALID_STATUS_TRANSITIONS a.status) :
    update_ml_analysis_status a payload now = UStep.err 409 a := by
  have ha := pyLower_self_of_mem_STATUSES hfrom
  have hp := pyLower_self_of_mem_STATUSES hto
  apply update_eq_conflict
  · rw [ha, hp]; exact fun h => hne h.symm
  · rw [ha, hp]; exact hnot

/-- Witness for C1 at a concrete input: a completed analysis rejects a
request for `queued` with a 409 and an unchanged record. -/
theorem C1_illegal_transition_conflict_witness :
    update_ml_analysis_status
        { status := "completed", completed_at := some 3 } { status := "queued" } 7 =
      UStep.err 409 { status := "completed", completed_at := some 3 } :=
  C1_illegal_transition_conflict _ _ 7 (by decide) (by decide) (by decide) (by decide)

/-- C8: for every analysis and every status-update request whose requested
status equals the stored status, the operation returns success and no field
of the stored record changes. -/
theorem C8_noop_same_status (a : Analysis) (payload : StatusUpdatePayload) (now : Nat)
    (h : payload.status = a.status) :
    update_ml_analysis_status a payload now = UStep.ok a := by
  simp [update_ml_analysis_status, h]

/-- Witness for C8 at a concrete input: echoing `processing` (with an error
message supplied) changes nothing, not even `updated_at` or
`error_message`. -/
theorem C8_noop_same_status_witness :
    update_ml_analysis_status
        { status := "processing", started_at := some 1, updated_at := 1 }
        { status := "processing", error_message := some "boom" } 9 =
      UStep.ok { status := "processing", started_at := some 1, updated_at := 1 } :=
  C8_noop_same_status _ _ 9 (by decide)

set_option maxRecDepth 100000 in
/-- The SHA-256 embedding reproduces the published FIPS 180 test vector
for the message `abc`. -/
example : bytesToHex (sha256 (strBytes "abc")) =
    "ba7816bf8f01cfea414140de5dae2223b00361a396177a9cb410ff61f20015ad" := by decide

set_option maxRecDepth 100000 in
/-- Witness for C3 at concrete inputs: the genuine signature of timestamp
1700000000 and body `hello` under secret `secret123` is accepted 100
seconds later within a 300-second window; the same signature far outside
the window is rejected with 401; and a missing secret yields 500. -/
theorem C3_signature_gate_witness :
    (_verify_pipeline_hmac true "secret123"
        (some "sha256=2f8b0dfab1ce5e9b5d56a7b00e6ed7ea5c3a7be740c2a56302dcaf8639241ca5")
        (some "1700000000") (strBytes "hello") 300 1700000100 = none) ∧
    (_verify_pipeline_hmac true "secret123"
        (some "sha256=2f8b0dfab1ce5e9b5d56a7b00e6ed7ea5c3a7be740c2a56302dcaf8639241ca5")
        (some "1700000000") (strBytes "hello") 300 1700990000 = some 401) ∧
    (_verify_pipeline_hmac true ""
        (some "sha256=2f8b0dfab1ce5e9b5d56a7b00e6ed7ea5c3a7be740c2a56302dcaf8639241ca5")
        (some "1700000000") (strBytes "hello") 300 1700000100 = some 500) := by
  refine ⟨?_, ?_, ?_⟩
  · rw [(C3_signature_gate "secret123"
      "sha256=2f8b0dfab1ce5e9b5d56a7b00e6ed7ea5c3a7be740c2a56302dcaf8639241ca5"
      "1700000000" (strBytes "hello") 300 1700000100).1]
    decide
  · rw [(C3_signature_gate "secret123"
      "sha256=2f8b0dfab1ce5e9b5d56a7b00e6ed7ea5c3a7be740c2a56302dcaf8639241ca5"
      "1700000000" (strBytes "hello") 300 1700990000).1]
    decide
  · rw [(C3_signature_gate ""
      "sha256=2f8b0dfab1ce5e9b5d56a7b00e6ed7ea5c3a7be740c2a56302dcaf8639241ca5"
      "1700000000" (strBytes "hello") 300 1700000100).1]
    decide

/-- The timestamp invariant exactly as the specification claims it:
`started_at` non-null once the status is `processing`, `completed`,
`failed` or `canceled`, and `completed_at` non-null exactly on the terminal
statuses. -/
def ClaimedInv (a : Analysis) : Prop :=
  (a.status ∈ ["processing", "completed", "failed", "canceled"] → a.started_at ≠ none) ∧
  (a.completed_at ≠ none ↔ a.status ∈ TERMINAL_STATUSES)

/-- The timestamp invariant as the code actually maintains it: a
`queued → canceled` update never touches `started_at`, so `canceled` must
be dropped from the `started_at` clause. -/
def MLInv (a : Analysis) : Prop :=
  (a.status ∈ ["processing", "completed", "failed"] → a.started_at ≠ none) ∧
  (a.completed_at ≠ none ↔ a.status ∈ TERMINAL_STATUSES)

instance (a : Analysis) : Decidable (ClaimedInv a) := by
  unfold ClaimedInv; infer_instance

instance (a : Analysis) : Decidable (MLInv a) := by
  unfold MLInv; infer_instance

/-- C2 counterexample: a fresh queued analysis satisfies the claimed
invariant, the status update to `canceled` is accepted, and the resulting
record — `canceled` with `completed_at` set but `started_at` still null —
violates the claimed invariant. -/
theorem C2_counterexample :
    ClaimedInv { status := "queued" } ∧
    update_ml_analysis_status { status := "queued" } { status := "canceled" } 5 =
      UStep.ok { status := "canceled", completed_at := some 5, updated_at := 5 } ∧
    ¬ ClaimedInv { status := "canceled", completed_at := some 5, updated_at := 5 } := by
  refine ⟨by decide, by decide, by decide⟩

lemma update_preserves_MLInv (a : Analysis) (payload : StatusUpdatePayload) (now : Nat)
    (hst : a.status ∈ STATUSES) (hinv : MLInv a) :
    MLInv (update_ml_analysis_status a payload now).record := by
  by_cases heq : pyLower a.status = pyLower payload.status
  · unfold update_ml_analysis_status
    rw [if_pos heq]
    exact hinv
  · by_cases hmem : pyLower payload.status ∈ VALID_STATUS_TRANSITIONS (pyLower a.status)
    · rw [update_accepted a payload now heq hmem, UStep.record_ok]
      rw [pyLower_self_of_mem_STATUSES hst] at hmem
      obtain ⟨hs1, hs2⟩ := hinv
      have hq := hst
      simp only [STATUSES, List.mem_cons, List.not_mem_nil, or_false] at hq
      rcases hq with h | h | h | h | h <;> rw [h] at hmem hs1 hs2 <;>
          simp [VALID_STATUS_TRANSITIONS] at hmem
      · -- source "queued": targets "processing" or "canceled"
        have hcn : a.completed_at = none := by
          simp [TERMINAL_STATUSES] at hs2
          exact hs2
        rcases hmem with hL | hL <;> rw [hL] <;> constructor
        · intro _
          cases hA : a.started_at <;> simp [hA]
        · simp [TERMINAL_STATUSES, hcn]
        · intro hcon
          simp [List.mem_cons] at hcon
        · simp [TERMINAL_STATUSES]
      · -- source "processing": targets "completed", "failed" or "canceled"
        have hsome : a.started_at ≠ none := hs1 (by simp)
        rcases hmem with hL | hL | hL <;> rw [hL] <;> constructor
        · intro _
          simpa using hsome
        · simp [TERMINAL_STATUSES]
        · intro _
          simpa using hsome
        · simp [TERMINAL_STATUSES]
        · intro hcon
          simp [List.mem_cons] at hcon
        · simp [TERMINAL_STATUSES]
    · rw [update_eq_conflict a payload now heq hmem, UStep.record_err]
      exact hinv

lemma finalize_preserves_MLInv (enabled requireHmac : Bool) (secret : String)
    (sigHeader tsHeader : Option String) (body : List Nat) (window now : Nat)
    (a : Analysis) (req : FinalizeRequest)
    (hst : a.status ∈ STATUSES) (hinv : MLInv a) :
    MLInv (finalize_analysis enabled requireHmac secret sigHeader tsHeader body
      window now a req).record := by
  unfold finalize_analysis
  cases enabled with
  | false => simpa using hinv
  | true =>
    simp only [Bool.not_true, if_false]
    cases hv : _verify_pipeline_hmac requireHmac secret sigHeader tsHeader body window now with
    | some code => simpa using hinv
    | none =>
      simp only
      by_cases hts : pyTruthy req.status = true
      · rw [if_pos hts]
        by_cases hfast : a.status = "queued" ∧
            pyLower (req.status.getD "") ∈ ["completed", "failed"]
        · rw [if_pos hfast]
          obtain ⟨hq, hL⟩ := hfast
          have hcn : a.completed_at = none := by
            obtain ⟨_, hs2⟩ := hinv
            rw [hq] at hs2
            simp [TERMINAL_STATUSES] at hs2
            exact hs2
          rcases (by simpa using hL : _ ∨ _) with hL' | hL' <;>
            rw [hL'] <;>
            by_cases hA : a.started_at = none <;>
            by_cases hE : pyTruthy req.error_message = true <;>
            simp [hA, hE, MLInv, TERMINAL_STATUSES]
        · rw [if_neg hfast]
          exact update_preserves_MLInv a _ now hst hinv
      · rw [if_neg hts]
        simpa using hinv

/-- C2 amended: restricted to the `started_at` clause without `canceled`,
the invariant is preserved by both the status-update operation and the
finalize operation (in every outcome, success or error). -/
theorem C2_amended_invariant_preserved (a : Analysis) (payload : StatusUpdatePayload)
    (enabled requireHmac : Bool) (secret : String) (sigHeader tsHeader : Option String)
    (body : List Nat) (window now : Nat) (req : FinalizeRequest)
    (hst : a.status ∈ STATUSES) (hinv : MLInv a) :
    MLInv (update_ml_analysis_status a payload now).record ∧
    MLInv (finalize_analysis enabled requireHmac secret sigHeader tsHeader body
      window now a req).record :=
  ⟨update_preserves_MLInv a payload now hst hinv,
   finalize_preserves_MLInv enabled requireHmac secret sigHeader tsHeader body
     window now a req hst hinv⟩

/-- Witness for the amended C2 at a concrete input: a queued analysis, a
status update to `canceled` and a finalize to `completed` both yield
records satisfying the amended invariant. -/
theorem C2_amended_invariant_preserved_witness :
    MLInv (update_ml_analysis_status { status := "queued" } { status := "canceled" } 5).record ∧
    MLInv (finalize_analysis true false "" none none [] 300 5 { status := "queued" }
      { status := some "completed" }).record :=
  C2_amended_invariant_preserved { status := "queued" } { status := "canceled" }
    true false "" none none [] 300 5 { status := some "completed" }
    (by decide) (by decide)

/-- C7 counterexample: an accepted transition from `queued` to
`processing` — a target other than `failed` — with a supplied error message
does store that error message, although the record held none before. -/
theorem C7_counterexample :
    (update_ml_analysis_status { status := "queued" }
        { status := "processing", error_message := some "boom" } 5 =
      UStep.ok { status := "processing", error_message := some "boom",
                 started_at := some 5, updated_at := 5 }) ∧
    Analysis.error_message { status := "queued" } = none ∧
    ("processing" : String) ≠ "failed" := by decide

/-- C7 amended: on every accepted status transition — through the
status-update operation, or through the fast path of the finalize
operation — the stored `error_message` is overwritten exactly when the
request supplies a truthy (non-empty) error message, regardless of the
target status; otherwise it is left unchanged. -/
theorem C7_amended_error_message (a : Analysis) (payload : StatusUpdatePayload)
    (req : FinalizeRequest) (enabled requireHmac : Bool) (secret : String)
    (sigHeader tsHeader : Option String) (body : List Nat) (window now : Nat) :
    (∀ a', update_ml_analysis_status a payload now = UStep.ok a' →
       a'.error_message =
         (if pyLower a.status = pyLower payload.status then a.error_message
          else if pyTruthy payload.error_message then payload.error_message
          else a.error_message)) ∧
    (∀ a', finalize_analysis enabled requireHmac secret sigHeader tsHeader body
        window now a req = UStep.ok a' →
       a.status = "queued" → pyLower (req.status.getD "") ∈ ["completed", "failed"] →
       pyTruthy req.status = true →
       a'.error_message =
         (if pyTruthy req.error_message then req.error_message else a.error_message)) := by
  constructor
  · intro a' hok
    by_cases heq : pyLower a.status = pyLower payload.status
    · unfold update_ml_analysis_status at hok
      rw [if_pos heq] at hok
      injection hok with h
      subst h
      rw [if_pos heq]
    · rw [if_neg heq]
      by_cases hmem : pyLower payload.status ∈ VALID_STATUS_TRANSITIONS (pyLower a.status)
      · rw [update_accepted a payload now heq hmem] at hok
        injection hok with h
        subst h
        rfl
      · rw [update_eq_conflict a payload now heq hmem] at hok
        exact UStep.noConfusion hok
  · intro a' hok hq hL htr
    cases enabled with
    | false => unfold finalize_analysis at hok; simp at hok
    | true =>
      cases hv : _verify_pipeline_hmac requireHmac secret sigHeader tsHeader body
          window now with
      | some code =>
        unfold finalize_analysis at hok
        simp only [Bool.not_true, if_false] at hok
        rw [hv] at hok
        simp at hok
      | none =>
        rw [finalize_fast_eq requireHmac secret sigHeader tsHeader body window now
          a req hv htr ⟨hq, hL⟩] at hok
        injection hok with h
        subst h
        rfl

/-- Witness for the amended C7 at concrete inputs: a transition
`queued → canceled` with error message `oops` stores it, and a fast
finalize `queued → completed` with error message `bad` stores it. -/
theorem C7_amended_error_message_witness :
    (({ status := "canceled", error_message := some "oops", completed_at := some 5,
        updated_at := 5 } : Analysis).error_message =
      if pyLower "queued" = pyLower "canceled" then none
      else if pyTruthy (some "oops") then some "oops" else none) ∧
    (({ status := "completed", error_message := some "bad", started_at := some 5,
        completed_at := some 5, updated_at := 5 } : Analysis).error_message =
      if pyTruthy (some "bad") then some "bad" else none) :=
  ⟨(C7_amended_error_message { status := "queued" }
      { status := "canceled", error_message := some "oops" }
      { status := none } true false "" none none [] 300 5).1
      { status := "canceled", error_message := some "oops", completed_at := some 5,
        updated_at := 5 } (by decide),
   (C7_amended_error_message { status := "queued" } { status := "x" }
      { status := some "completed", error_message := some "bad" }
      true false "" none none [] 300 5).2
      { status := "completed", error_message := some "bad", started_at := some 5,
        completed_at := some 5, updated_at := 5 }
      (by decide) (by decide) (by decide) (by decide)⟩

/-- C4: for a queued analysis, a finalize request that passes the HMAC gate
and carries a status whose lowercase form is `completed` or `failed`
succeeds, stores that lowercased terminal status, and leaves `started_at`
(synthesized when it was unset) and `completed_at` both non-null; a
finalize request carrying no status is a read-only no-op returning the
record unchanged. -/
theorem C4_fast_finalize (enabled requireHmac : Bool) (secret : String)
    (sigHeader tsHeader : Option String) (body : List Nat) (window now : Nat)
    (a : Analysis) (req : FinalizeRequest)
    (hen : enabled = true)
    (hver : _verify_pipeline_hmac requireHmac secret sigHeader tsHeader body window now = none)
    (hq : a.status = "queued") :
    (∀ s, req.status = some s → pyLower s ∈ ["completed", "failed"] →
       ∃ a', finalize_analysis enabled requireHmac secret sigHeader tsHeader body
           window now a req = UStep.ok a' ∧
         a'.status = pyLower s ∧ a'.started_at ≠ none ∧ a'.completed_at ≠ none) ∧
    (req.status = none →
       finalize_analysis enabled requireHmac secret sigHeader tsHeader body
         window now a req = UStep.ok a) := by
  subst hen
  constructor
  · intro s hs hsl
    have hsne : s ≠ "" := by
      intro h
      rw [h] at hsl
      simp [pyLower] at hsl
    have htr : pyTruthy req.status = true := by
      rw [hs]
      simpa [pyTruthy] using hsne
    have hgd : req.status.getD "" = s := by rw [hs]; rfl
    refine ⟨_, finalize_fast_eq requireHmac secret sigHeader tsHeader body window now
      a req hver htr ⟨hq, by rw [hgd]; exact hsl⟩, by rw [hgd], ?_, ?_⟩ <;>
      by_cases hA : a.started_at = none <;> simp [hA]
  · intro hs
    exact finalize_no_status requireHmac secret sigHeader tsHeader body window now
      a req hver (by rw [hs]; rfl)

set_option maxRecDepth 100000 in
/-- Witness for C4 at concrete inputs, with enforcement on and a genuine
signature: the HMAC of timestamp 1700000000, a `.` separator and the body
bytes of `hello` under secret `secret123`, presented 100 seconds later
within a 300-second window, passes the gate; the fast finalize stores
`completed` with both timestamps set, and a status-free request is a
no-op. -/
theorem C4_fast_finalize_witness :
    (∃ a', finalize_analysis true true "secret123"
        (some "sha256=2f8b0dfab1ce5e9b5d56a7b00e6ed7ea5c3a7be740c2a56302dcaf8639241ca5")
        (some "1700000000") (strBytes "hello") 300 1700000100
        { status := "queued" } { status := some "completed" } = UStep.ok a' ∧
      a'.status = pyLower "completed" ∧ a'.started_at ≠ none ∧ a'.completed_at ≠ none) ∧
    (finalize_analysis true true "secret123"
        (some "sha256=2f8b0dfab1ce5e9b5d56a7b00e6ed7ea5c3a7be740c2a56302dcaf8639241ca5")
        (some "1700000000") (strBytes "hello") 300 1700000100
        { status := "queued" } { status := none } = UStep.ok { status := "queued" }) := by
  have h := C4_fast_finalize true true "secret123"
      (some "sha256=2f8b0dfab1ce5e9b5d56a7b00e6ed7ea5c3a7be740c2a56302dcaf8639241ca5")
      (some "1700000000") (strBytes "hello") 300 1700000100
      { status := "queued" } { status := some "completed" } rfl (by decide) (by decide)
  have h2 := C4_fast_finalize true true "secret123"
      (some "sha256=2f8b0dfab1ce5e9b5d56a7b00e6ed7ea5c3a7be740c2a56302dcaf8639241ca5")
      (some "1700000000") (strBytes "hello") 300 1700000100
      { status := "queued" } { status := none } rfl (by decide) (by decide)
  exact ⟨h.1 "completed" rfl (by decide), h2.2 rfl⟩

/-- C9: the status-update operation compares statuses case-insensitively: a
request whose lowercased status matches the lowercased stored status is a
successful no-op; an accepted transition stores the lowercased requested
status; and concretely a request with status `COMPLETED` against a
`processing` analysis is accepted and stores `completed`. -/
theorem C9_case_insensitive (a : Analysis) (payload : StatusUpdatePayload) (now : Nat) :
    (pyLower a.status = pyLower payload.status →
       update_ml_analysis_status a payload now = UStep.ok a) ∧
    (∀ a', update_ml_analysis_status a payload now = UStep.ok a' →
       pyLower a.status ≠ pyLower payload.status → a'.status = pyLower payload.status) ∧
    (a.status = "processing" → pyLower payload.status = "completed" →
       ∃ a', update_ml_analysis_status a payload now = UStep.ok a' ∧ a'.status = "completed") := by
  refine ⟨?_, ?_, ?_⟩
  · intro h
    unfold update_ml_analysis_status
    rw [if_pos h]
  · intro a' hok hne
    by_cases hmem : pyLower payload.status ∈ VALID_STATUS_TRANSITIONS (pyLower a.status)
    · rw [update_accepted a payload now hne hmem] at hok
      cases hok
      rfl
    · rw [update_eq_conflict a payload now hne hmem] at hok
      cases hok
  · intro hst hlow
    have hne : pyLower a.status ≠ pyLower payload.status := by
      rw [hst, hlow]; decide
    have hmem : pyLower payload.status ∈ VALID_STATUS_TRANSITIONS (pyLower a.status) := by
      rw [hst, hlow]; decide
    refine ⟨_, update_accepted a payload now hne hmem, ?_⟩
    simp [hlow]

/-- Witness for C9 at concrete inputs: the three conjuncts instantiated for
a `processing` analysis and a request with status `COMPLETED`. -/
theorem C9_case_insensitive_witness :
    (update_ml_analysis_status { status := "processing", started_at := some 1 }
        { status := "PROCESSING" } 9 =
      UStep.ok { status := "processing", started_at := some 1 }) ∧
    (∃ a', update_ml_analysis_status { status := "processing", started_at := some 1 }
        { status := "COMPLETED" } 9 = UStep.ok a' ∧ a'.status = "completed") :=
  ⟨(C9_case_insensitive { status := "processing", started_at := some 1 }
      { status := "PROCESSING" } 9).1 (by decide),
   (C9_case_insensitive { status := "processing", started_at := some 1 }
      { status := "COMPLETED" } 9).2.2 (by decide) (by decide)⟩

end MLPipe
